import Mathlib

/-!
Verification of the `don-confiado` WhatsApp client (tribu-ia/don-confiado,
`projects/typescript/don-confiado-whatsapp-qr/src`).

The development shallowly embeds the latest `WhatsAppHandler` revision of
`global_resource.ts` (the class at the end of that file, together with the
inline handler of `index.ts`) and the interactive CLI of `chat_cli.ts`.
Stateful event handlers become explicit state-transition functions on a
`HandlerState`; the side effects a handler performs (read receipts, HTTP
calls, sends, logs) become explicit `Effect` values in the order the code
performs them; the outside world (media downloads, the Chat Backend's HTTP
answer) is an explicit environment value.
-/

namespace DonConfiado

/-! ## Connection lifecycle state machine

Embeds `WhatsAppHandler.onConnectionUpdate`, `onConnectionUpdateQR` and
`onConnectionUpdateClose` of `global_resource.ts` (latest revision,
lines 366-440), matching the inline handler of `index.ts` lines 86-128.
-/

/-- Spec phase vocabulary, assigned to code actions: constructing/reconnecting
the socket (`initSocket`) enters `connecting`; rendering a QR enters
`awaitingScan`; a `connection === "open"` update enters `opened`; process
termination (`process.exit`) leaves the connection `closed`. -/
inductive Phase where
  | connecting
  | awaitingScan
  | opened
  | closed
deriving DecidableEq, Repr

namespace DisconnectReason

/-- Modelled from the `baileys` library (not part of this repository):
the `DisconnectReason.loggedOut` sentinel. The code only compares disconnect
status codes against it for equality, so the concrete value is immaterial;
401 is the library's value. -/
def loggedOut : Nat := 401

end DisconnectReason

/-- Observable state of one `WhatsAppHandler` object plus the process-level
facts the claims talk about.  `qrAttempts` and `maxQrAttempts` are the
object's fields; `exited` records a `process.exit` code once called (after
which no further events are processed); `credsDeleted` records
`deleteAuthFolder("auth_info_baileys")`; `renders` lists the attempt number
shown with each QR actually rendered; `logouts` counts `sock.logout()` calls;
`reconnectAttempts` counts reconnection attempts (`initSocket()` calls from
the close handler). -/
structure HandlerState where
  qrAttempts : Nat
  phase : Phase
  exited : Option Nat
  credsDeleted : Bool
  renders : List Nat
  logouts : Nat
  reconnectAttempts : Nat
deriving DecidableEq, Repr

/-- A freshly constructed handler (constructor sets `qrAttempts = 0`) whose
socket is being established. -/
def mkHandler : HandlerState :=
  { qrAttempts := 0
  , phase := Phase.connecting
  , exited := none
  , credsDeleted := false
  , renders := []
  , logouts := 0
  , reconnectAttempts := 0 }

/-- `private readonly maxQrAttempts = 3` (global_resource.ts line 203). -/
def maxQrAttempts : Nat := 3

/-- `onConnectionUpdateQR` (global_resource.ts lines 366-384): increment
`qrAttempts`; if it now exceeds `maxQrAttempts`, log out and
`process.exit(1)`; otherwise render the QR with the current attempt count. -/
def onConnectionUpdateQR (s : HandlerState) : HandlerState :=
  let a := s.qrAttempts + 1
  if maxQrAttempts < a then
    { s with qrAttempts := a
           , logouts := s.logouts + 1
           , exited := some 1
           , phase := Phase.closed }
  else
    { s with qrAttempts := a
           , renders := s.renders ++ [a]
           , phase := Phase.awaitingScan }

/-- `onConnectionUpdateClose` (global_resource.ts lines 386-417):
`shouldReconnect` iff the disconnect status code differs from the
logged-out sentinel (an absent code also differs).  If so, reconnect via
`initSocket()` on the same handler object (exiting 1 if that attempt throws,
modelled by `reconnectOk = false`); otherwise delete the auth folder and
`process.exit(0)`. -/
def onConnectionUpdateClose (statusCode : Option Nat) (reconnectOk : Bool)
    (s : HandlerState) : HandlerState :=
  let shouldReconnect := statusCode ≠ some DisconnectReason.loggedOut
  if shouldReconnect then
    if reconnectOk then
      { s with phase := Phase.connecting
             , reconnectAttempts := s.reconnectAttempts + 1 }
    else
      { s with reconnectAttempts := s.reconnectAttempts + 1
             , exited := some 1
             , phase := Phase.closed }
  else
    { s with credsDeleted := true
           , exited := some 0
           , phase := Phase.closed }

/-- One `connection.update` event payload: the destructured
`connection`, `lastDisconnect?.error?.output?.statusCode` and `qr` fields. -/
structure ConnUpdate where
  connection : Option String
  statusCode : Option Nat
  qr : Option String
deriving DecidableEq, Repr

/-- `onConnectionUpdate` (global_resource.ts lines 418-440): once the process
has exited no handler runs; otherwise a present `qr` field runs the QR
handler (which may exit the process), then `connection === "open"` /
`connection === "close"` are dispatched in order. -/
def onConnectionUpdate (reconnectOk : Bool) (u : ConnUpdate)
    (s : HandlerState) : HandlerState :=
  if s.exited.isSome then s
  else
    let s1 := match u.qr with
      | some _ => onConnectionUpdateQR s
      | none => s
    if s1.exited.isSome then s1
    else
      match u.connection with
      | some c =>
        if c = "open" then { s1 with phase := Phase.opened }
        else if c = "close" then onConnectionUpdateClose u.statusCode reconnectOk s1
        else s1
      | none => s1

/-- A pure QR challenge event: `connection` and `lastDisconnect` are empty. -/
def qrEvent : ConnUpdate :=
  { connection := none, statusCode := none, qr := some "qr-payload" }

/-- A `connection: "close"` event with the given disconnect status code. -/
def closeEvent (statusCode : Option Nat) : ConnUpdate :=
  { connection := some "close", statusCode := statusCode, qr := none }

/-- State of a fresh handler after `n` successive QR challenge events. -/
def runQr : Nat → HandlerState
  | 0 => mkHandler
  | n + 1 => onConnectionUpdate true qrEvent (runQr n)

/-- State after a sequence of close events with the given status codes. -/
def runCloses (reconnectOk : Bool) (codes : List (Option Nat))
    (s : HandlerState) : HandlerState :=
  codes.foldl (fun st c => onConnectionUpdate reconnectOk (closeEvent c) st) s

/-- The absorbing state reached once QR attempts are exhausted. -/
def qrDeadState : HandlerState :=
  { qrAttempts := 4
  , phase := Phase.closed
  , exited := some 1
  , credsDeleted := false
  , renders := [1, 2, 3]
  , logouts := 1
  , reconnectAttempts := 0 }

theorem runQr_dead (n : Nat) (h : 4 ≤ n) : runQr n = qrDeadState := by
  induction n with
  | zero => omega
  | succ k ih =>
    rcases Nat.lt_or_ge k 4 with hk | hk
    · have hk3 : k = 3 := by omega
      subst hk3
      decide
    · show onConnectionUpdate true qrEvent (runQr k) = qrDeadState
      rw [ih hk]
      decide

theorem runQr_live (n : Nat) (h : n ≤ 3) :
    runQr n =
      { qrAttempts := n
      , phase := if n = 0 then Phase.connecting else Phase.awaitingScan
      , exited := none
      , credsDeleted := false
      , renders := (List.range n).map (fun i => i + 1)
      , logouts := 0
      , reconnectAttempts := 0 } := by
  interval_cases n <;> decide

/-- Claim C1 counterexample: the claim asserts the `qrAttempts` counter never
exceeds `maxQrAttempts`, but after the 4th QR challenge of one session the
counter holds 4 > 3 (it is incremented before the bound test, and the forced
logout happens with the counter already at `maxQrAttempts + 1`). -/
theorem c1_counter_exceeds_max : maxQrAttempts < (runQr 4).qrAttempts := by
  decide

/-- Claim C1 (amended): within one session with `maxQrAttempts = 3`,
presenting more than `maxQrAttempts` QR challenges causes the forced logout
(`sock.logout` then `process.exit`) exactly once, a 4th QR code is never
rendered (at most 3 renders, each showing an attempt number ≤ 3), and the
counter never exceeds `maxQrAttempts + 1` — it reaches exactly
`maxQrAttempts + 1` at the forced logout. -/
theorem c1_qr_exhaustion (n : Nat) :
    (runQr n).qrAttempts ≤ maxQrAttempts + 1 ∧
    (runQr n).renders.length ≤ maxQrAttempts ∧
    (∀ a ∈ (runQr n).renders, a ≤ maxQrAttempts) ∧
    (runQr n).logouts ≤ 1 ∧
    (4 ≤ n → (runQr n).logouts = 1 ∧ (runQr n).exited = some 1) := by
  rcases Nat.lt_or_ge n 4 with h | h
  · have h3 : n ≤ 3 := by omega
    interval_cases n <;> exact ⟨by decide, by decide, by decide, by decide,
      fun hc => absurd hc (by decide)⟩
  · rw [runQr_dead n h]
    exact ⟨by decide, by decide, by decide, by decide, fun _ => ⟨rfl, rfl⟩⟩

/-- Claim C1 witness: the amended claim evaluated after 5 QR challenges. -/
theorem c1_qr_exhaustion_witness :
    (runQr 5).logouts = 1 ∧ (runQr 5).exited = some 1 ∧
    (runQr 5).qrAttempts ≤ maxQrAttempts + 1 ∧
    (runQr 5).renders.length ≤ maxQrAttempts := by
  have h := c1_qr_exhaustion 5
  exact ⟨(h.2.2.2.2 (by decide)).1, (h.2.2.2.2 (by decide)).2, h.1, h.2.1⟩

/-- Claim C2: a close event whose disconnect status code equals the library's
logged-out sentinel deletes the stored credentials, attempts no reconnect and
exits the process with code 0 (regardless of whether a reconnect would have
succeeded); a close event with any other status code — including an absent
one — attempts a reconnect instead of exiting (shown here when the reconnect
attempt itself succeeds); and once exited with 0, no further connection
update does anything. -/
theorem c2_close_decision :
    (∀ (s : HandlerState) (r : Bool),
        onConnectionUpdateClose (some DisconnectReason.loggedOut) r s =
          { s with credsDeleted := true, exited := some 0, phase := Phase.closed }) ∧
    (∀ (s : HandlerState) (c : Option Nat), c ≠ some DisconnectReason.loggedOut →
        onConnectionUpdateClose c true s =
          { s with phase := Phase.connecting
                 , reconnectAttempts := s.reconnectAttempts + 1 }) ∧
    (∀ (u : ConnUpdate) (r : Bool) (s : HandlerState), s.exited = some 0 →
        onConnectionUpdate r u s = s) := by
  refine ⟨fun s r => ?_, fun s c hc => ?_, fun u r s hs => ?_⟩
  · simp [onConnectionUpdateClose]
  · simp [onConnectionUpdateClose, hc]
  · simp [onConnectionUpdate, hs]

/-- Claim C2 witness: the decision trichotomy at concrete inputs — logged-out
close on a fresh handler, a 428 close, an absent-reason close, and an update
arriving after exit 0. -/
theorem c2_close_decision_witness :
    onConnectionUpdateClose (some DisconnectReason.loggedOut) true mkHandler =
      { mkHandler with credsDeleted := true, exited := some 0, phase := Phase.closed } ∧
    onConnectionUpdateClose (some 428) true mkHandler =
      { mkHandler with phase := Phase.connecting
                     , reconnectAttempts := mkHandler.reconnectAttempts + 1 } ∧
    onConnectionUpdateClose none true mkHandler =
      { mkHandler with phase := Phase.connecting
                     , reconnectAttempts := mkHandler.reconnectAttempts + 1 } ∧
    onConnectionUpdate true qrEvent { mkHandler with exited := some 0 } =
      { mkHandler with exited := some 0 } := by
  have h := c2_close_decision
  exact ⟨h.1 mkHandler true, h.2.1 mkHandler (some 428) (by decide),
    h.2.1 mkHandler none (by decide),
    h.2.2 qrEvent true { mkHandler with exited := some 0 } rfl⟩

theorem connUpdate_close_step (c : Option Nat) (s : HandlerState)
    (hc : c ≠ some DisconnectReason.loggedOut) (hs : s.exited = none) :
    onConnectionUpdate true (closeEvent c) s =
      { s with phase := Phase.connecting
             , reconnectAttempts := s.reconnectAttempts + 1 } := by
  simp [onConnectionUpdate, closeEvent, onConnectionUpdateClose, hs, hc]

theorem runCloses_preserved (codes : List (Option Nat)) :
    ∀ s : HandlerState, s.exited = none →
    (∀ c ∈ codes, c ≠ some DisconnectReason.loggedOut) →
    (runCloses true codes s).qrAttempts = s.qrAttempts ∧
    (runCloses true codes s).exited = none ∧
    (codes ≠ [] → (runCloses true codes s).phase = Phase.connecting) := by
  induction codes with
  | nil => intro s hs _; exact ⟨rfl, hs, fun h => absurd rfl h⟩
  | cons c rest ih =>
    intro s hs hall
    have hc : c ≠ some DisconnectReason.loggedOut := hall c (List.mem_cons_self c rest)
    have hstep := connUpdate_close_step c s hc hs
    have hrest : ∀ d ∈ rest, d ≠ some DisconnectReason.loggedOut :=
      fun d hd => hall d (List.mem_cons_of_mem c hd)
    have hnew : ({ s with phase := Phase.connecting
                        , reconnectAttempts := s.reconnectAttempts + 1 } :
        HandlerState).exited = none := hs
    have h2 := ih _ hnew hrest
    have hrun : runCloses true (c :: rest) s =
        runCloses true rest { s with phase := Phase.connecting
                                   , reconnectAttempts := s.reconnectAttempts + 1 } := by
      simp [runCloses, hstep]
    rcases rest with _ | ⟨d, rest2⟩
    · refine ⟨?_, ?_, fun _ => ?_⟩
      · rw [hrun]; simp [runCloses]
      · rw [hrun]; simpa [runCloses] using hs
      · rw [hrun]; simp [runCloses]
    · exact ⟨by rw [hrun]; exact h2.1, by rw [hrun]; exact h2.2.1,
        fun _ => by rw [hrun]; exact h2.2.2 (by simp)⟩

/-- Claim C8: for every sequence of close events whose disconnect reasons all
differ from the logged-out sentinel, starting from any live handler state,
after each event of the sequence the manager is back in the `connecting`
phase and the `qrAttempts` counter is unchanged (never reset mid-session);
the counter is 0 only by virtue of fresh handler construction
(`mkHandler.qrAttempts = 0`). -/
theorem c8_transient_close_preserves_counter (s : HandlerState)
    (codes : List (Option Nat)) (hs : s.exited = none)
    (hall : ∀ c ∈ codes, c ≠ some DisconnectReason.loggedOut) :
    (∀ k, 0 < k → k ≤ codes.length →
       (runCloses true (codes.take k) s).phase = Phase.connecting ∧
       (runCloses true (codes.take k) s).qrAttempts = s.qrAttempts) ∧
    mkHandler.qrAttempts = 0 := by
  refine ⟨fun k hk hklen => ?_, rfl⟩
  have hsub : ∀ c ∈ codes.take k, c ≠ some DisconnectReason.loggedOut :=
    fun c hc => hall c (List.take_subset k codes hc)
  have h := runCloses_preserved (codes.take k) s hs hsub
  have hne : codes.take k ≠ [] := by
    intro he
    have hlen : (codes.take k).length = min k codes.length := List.length_take k codes
    rw [he] at hlen
    simp at hlen
    omega
  exact ⟨h.2.2 hne, h.1⟩

/-- Claim C8 witness: two transient closes (code 428, then an absent code) on
a mid-session handler that already presented one QR: after each event the
phase is `connecting` and the counter stays at 1. -/
theorem c8_transient_close_preserves_counter_witness :
    ((runCloses true ([some 428, none].take 1) (runQr 1)).phase = Phase.connecting ∧
     (runCloses true ([some 428, none].take 1) (runQr 1)).qrAttempts = (runQr 1).qrAttempts) ∧
    ((runCloses true ([some 428, none].take 2) (runQr 1)).phase = Phase.connecting ∧
     (runCloses true ([some 428, none].take 2) (runQr 1)).qrAttempts = (runQr 1).qrAttempts) ∧
    mkHandler.qrAttempts = 0 := by
  have h := c8_transient_close_preserves_counter (runQr 1) [some 428, none]
    (by decide) (by decide)
  exact ⟨h.1 1 (by decide) (by decide), h.1 2 (by decide) (by decide), h.2⟩

/-! ## Message relay handler

Embeds `WhatsAppHandler.onMessagesUpsert` of `global_resource.ts`
(latest revision, lines 259-365): per inbound message, skip echoes,
optionally download media, mark read, POST to the Chat Backend and send
back its reply. Side effects are recorded as an ordered `Effect` list;
the outside world (media download success, the downloaded file's base64,
the backend's HTTP outcome) is a `RelayEnv` value. -/

/-- `msg.key`: `fromMe` (echo flag) and `remoteJid` (sender id). -/
structure MsgKey where
  fromMe : Bool
  remoteJid : String
deriving DecidableEq, Repr

/-- The message content union (the spec's `content`); mirrors which of
`conversation` / `extendedTextMessage` / `imageMessage` / `audioMessage`
is present on `msg.message`. -/
inductive MessageContent where
  | conversation (text : String)
  | extendedText (text : String)
  | image (mimetype : String) (caption : Option String)
  | audio (mimetype : String)
deriving DecidableEq, Repr

/-- One element of `message_array.messages`; `message` is `null`-able. -/
structure WAMessage where
  key : MsgKey
  message : Option MessageContent
deriving DecidableEq, Repr

/-- `getContentType(msg.message)` (from the `baileys` library): the name of
the populated content field. -/
def getContentType : MessageContent → String
  | MessageContent.conversation _ => "conversation"
  | MessageContent.extendedText _ => "extendedTextMessage"
  | MessageContent.image _ _ => "imageMessage"
  | MessageContent.audio _ => "audioMessage"

/-- `msg.message.conversation` as an optional field. -/
def conversationOf : MessageContent → Option String
  | MessageContent.conversation t => some t
  | _ => none

/-- `msg.message.extendedTextMessage?.text` as an optional field. -/
def extendedTextOf : MessageContent → Option String
  | MessageContent.extendedText t => some t
  | _ => none

/-- `msg.message.imageMessage?.caption` as an optional field. -/
def captionOf : MessageContent → Option String
  | MessageContent.image _ c => c
  | _ => none

/-- JavaScript `a || d` for an optionally present string `a`: an absent or
empty string is falsy and falls through to `d`. -/
def jsOr (a : Option String) (d : String) : String :=
  match a with
  | some s => if s = "" then d else s
  | none => d

/-- The relayed text (global_resource.ts lines 326-329):
`msg.message.imageMessage?.caption || msg.message.conversation ||
msg.message.extendedTextMessage?.text || "No texto disponible"`. -/
def extractText (c : MessageContent) : String :=
  jsOr (captionOf c) (jsOr (conversationOf c) (jsOr (extendedTextOf c) "No texto disponible"))

/-- A JSON value as it appears in the stringified request body: the code
always includes `mime_type` (a string) and `file_base64` (a string or
`null`), never omitting the fields. -/
inductive JsonVal where
  | str (s : String)
  | jnull
deriving DecidableEq, Repr

/-- The parsed JSON of a Chat Backend response body: the optional `reply`
and `answer` fields (`chat_cli.ts` `ChatResponse`). -/
structure ChatResponse where
  reply : Option String
  answer : Option String
deriving DecidableEq, Repr

/-- Outcome of the `fetch` to the Chat Backend: the promise rejects
(network error), or an HTTP response arrives with some status code and a
body that either parses as JSON or does not. -/
inductive FetchOutcome where
  | networkError
  | httpResp (status : Nat) (json : Option ChatResponse)
deriving DecidableEq, Repr

/-- Environment for processing one message: whether the media
download-and-save step succeeds (the source reaches it through
`downloadMediaMessage` / `downloadAndSaveMedia`; any throw there lands in
the per-message catch), the base64 encoding `fileToBase64(filename)` of the
saved file, and the backend fetch outcome. -/
structure RelayEnv where
  mediaOk : Bool
  fileBase64 : String
  fetch : FetchOutcome
deriving DecidableEq, Repr

/-- An observable side effect of the relay handler, in program order. -/
inductive Effect where
  | mediaSaved (filename : String)
  | readReceipt (key : MsgKey)
  | backendCall (url : String) (body : List (String × JsonVal))
  | sendText (jid : String) (text : String)
  | logFetchError
  | logHandlerError
deriving DecidableEq, Repr

/-- The hardcoded Chat Backend endpoint (global_resource.ts line 332). -/
def chatEndpoint : String := "http://127.0.0.1:8000/api/chat_v2.0"

/-- The fixed fallback reply (global_resource.ts line 350). -/
def fallbackReply : String := "⚠️ No pude entender tu mensaje - juriel"

/-- The stringified request body (global_resource.ts lines 337-342), fields
in source order. -/
def chatBody (message userId mimeType : String) (fileBase64 : JsonVal) :
    List (String × JsonVal) :=
  [("message", JsonVal.str message)
  , ("user_id", JsonVal.str userId)
  , ("mime_type", JsonVal.str mimeType)
  , ("file_base64", fileBase64)]

/-- The `.then(r => r.json()).then(resp => sendMessage(resp.reply ?? fallback))
.catch(log)` continuation of the fetch (global_resource.ts lines 345-353).
The HTTP status code is never inspected; only a rejected fetch or a body
that fails to parse as JSON reaches the catch. -/
def fetchContinuation (jid : String) (f : FetchOutcome) : List Effect :=
  match f with
  | FetchOutcome.networkError => [Effect.logFetchError]
  | FetchOutcome.httpResp _ none => [Effect.logFetchError]
  | FetchOutcome.httpResp _ (some r) =>
      [Effect.sendText jid (r.reply.getD fallbackReply)]

/-- `mime_type.split('/')[1]` used to build the temp filename; JavaScript
yields the string `"undefined"` when concatenating a missing element. -/
def mediaExt (mimeType : String) : String :=
  match (mimeType.splitOn "/").get? 1 with
  | some e => e
  | none => "undefined"

/-- The tail of the per-message body after (any) media handling succeeded:
mark read, call the backend with the constructed body, then run the fetch
continuation (global_resource.ts lines 324-353). `file_base64` is
`mime_type ? fileToBase64(filename) : null` — the empty string is falsy. -/
def relayCore (env : RelayEnv) (msg : WAMessage) (content : MessageContent)
    (mimeType : String) : List Effect :=
  let fileBase64 := if mimeType = "" then JsonVal.jnull else JsonVal.str env.fileBase64
  Effect.readReceipt msg.key ::
  Effect.backendCall chatEndpoint
    (chatBody (extractText content) msg.key.remoteJid mimeType fileBase64) ::
  fetchContinuation msg.key.remoteJid env.fetch

/-- Processing of one message of the batch (the body of the `for` loop,
global_resource.ts lines 262-361): echoes are skipped before the try block;
an absent `msg.message` does nothing; a media message downloads and saves
its payload first — any throw there is caught by the per-message catch,
which logs and moves to the next message. -/
def processMessage (env : RelayEnv) (msg : WAMessage) : List Effect :=
  if msg.key.fromMe then []
  else
    match msg.message with
    | none => []
    | some content =>
      match content with
      | MessageContent.image m _ =>
        if env.mediaOk then
          Effect.mediaSaved ("/tmp/downloaded-image." ++ mediaExt m) ::
            relayCore env msg content m
        else [Effect.logHandlerError]
      | MessageContent.audio m =>
        if env.mediaOk then
          Effect.mediaSaved ("/tmp/downloaded-audio." ++ mediaExt m) ::
            relayCore env msg content m
        else [Effect.logHandlerError]
      | _ => relayCore env msg content ""

/-- `onMessagesUpsert` over the whole batch: the loop over
`message_array.messages`, each message with its environment. -/
def processBatch : List (RelayEnv × WAMessage) → List Effect
  | [] => []
  | (env, msg) :: rest => processMessage env msg ++ processBatch rest

/-- Whether the content is a media message (image or audio). -/
def isMediaContent : MessageContent → Bool
  | MessageContent.image _ _ => true
  | MessageContent.audio _ => true
  | _ => false

/-- Claim C3: an inbound message whose `key.fromMe` echo flag is true
produces no effect at all — no backend call, no read receipt, no reply —
and the rest of the batch is processed exactly as if the echo were absent. -/
theorem c3_echo_ignored (env : RelayEnv) (msg : WAMessage)
    (rest : List (RelayEnv × WAMessage)) (h : msg.key.fromMe = true) :
    processMessage env msg = [] ∧
    processBatch ((env, msg) :: rest) = processBatch rest := by
  refine ⟨by simp [processMessage, h], ?_⟩
  simp [processBatch, processMessage, h]

/-- Claim C3 witness: an echo of "hola" followed by a non-echo "hi" — the
echo contributes nothing and the batch result is that of the rest alone. -/
theorem c3_echo_ignored_witness :
    processMessage ⟨true, "", FetchOutcome.networkError⟩
        ⟨⟨true, "u1"⟩, some (MessageContent.conversation "hola")⟩ = [] ∧
    processBatch
        [(⟨true, "", FetchOutcome.networkError⟩,
          ⟨⟨true, "u1"⟩, some (MessageContent.conversation "hola")⟩),
         (⟨true, "", FetchOutcome.networkError⟩,
          ⟨⟨false, "u2"⟩, some (MessageContent.conversation "hi")⟩)]
      = processBatch
        [(⟨true, "", FetchOutcome.networkError⟩,
          ⟨⟨false, "u2"⟩, some (MessageContent.conversation "hi")⟩)] :=
  c3_echo_ignored ⟨true, "", FetchOutcome.networkError⟩
    ⟨⟨true, "u1"⟩, some (MessageContent.conversation "hola")⟩
    [(⟨true, "", FetchOutcome.networkError⟩,
      ⟨⟨false, "u2"⟩, some (MessageContent.conversation "hi")⟩)] rfl

/-- Claim C4 counterexample: the claim says the relay falls back to the
`answer` field when `reply` is absent, so for backend response
`{"answer": "X"}` the peer should receive "X"; the code sends
`response.reply ?? fallback` and never reads `answer`, so the peer receives
the fallback string instead. -/
theorem c4_answer_field_ignored :
    processMessage ⟨true, "", FetchOutcome.httpResp 200 (some ⟨none, some "X"⟩)⟩
        ⟨⟨false, "u1"⟩, some (MessageContent.conversation "hola")⟩ =
      [Effect.readReceipt ⟨false, "u1"⟩,
       Effect.backendCall chatEndpoint (chatBody "hola" "u1" "" JsonVal.jnull),
       Effect.sendText "u1" fallbackReply] ∧
    fallbackReply ≠ "X" := by
  decide

/-- Claim C4 (amended): for every backend response that parses as JSON, the
relay sends back to the sender the `reply` field when populated and the
fixed fallback string otherwise; the `answer` field is never consulted, so
`{"reply": "X"}` yields exactly "X" while `{"answer": "X"}` yields the
fallback. Exactly one text is sent, to the sender's id. -/
theorem c4_reply_or_fallback (env : RelayEnv) (msg : WAMessage)
    (content : MessageContent) (r : ChatResponse) (st : Nat)
    (h1 : msg.key.fromMe = false) (h2 : msg.message = some content)
    (h3 : env.mediaOk = true)
    (h4 : env.fetch = FetchOutcome.httpResp st (some r)) :
    Effect.sendText msg.key.remoteJid (r.reply.getD fallbackReply) ∈
      processMessage env msg ∧
    (∀ j t, Effect.sendText j t ∈ processMessage env msg →
      j = msg.key.remoteJid ∧ t = r.reply.getD fallbackReply) := by
  cases content <;>
    simp_all [processMessage, relayCore, fetchContinuation]

/-- Claim C4 witness: a `reply`-only response delivers exactly that reply. -/
theorem c4_reply_or_fallback_witness :
    Effect.sendText "u1" "X" ∈
      processMessage ⟨true, "", FetchOutcome.httpResp 200 (some ⟨some "X", none⟩)⟩
        ⟨⟨false, "u1"⟩, some (MessageContent.conversation "hola")⟩ :=
  (c4_reply_or_fallback ⟨true, "", FetchOutcome.httpResp 200 (some ⟨some "X", none⟩)⟩
    ⟨⟨false, "u1"⟩, some (MessageContent.conversation "hola")⟩
    (MessageContent.conversation "hola") ⟨some "X", none⟩ 200
    rfl rfl rfl rfl).1

/-- Claim C5 counterexample: the claim says a non-2xx status causes a silent
failure with no reply of any kind; the code never inspects the status, so an
HTTP 500 whose body parses as JSON (here `{}` for message "hello" from
"u1") flows through the success path and the fallback string IS sent to the
peer. -/
theorem c5_non2xx_still_replies :
    Effect.sendText "u1" fallbackReply ∈
      processMessage ⟨true, "", FetchOutcome.httpResp 500 (some ⟨none, none⟩)⟩
        ⟨⟨false, "u1"⟩, some (MessageContent.conversation "hello")⟩ := by
  decide

/-- Claim C5 (amended): the relay is silent only on a network error or a
response body that fails to parse as JSON — there the failure is logged via
the fetch catch, no text whatsoever (not even the fallback) is sent, and no
unhandled fault escapes; the HTTP status code is never inspected, so the
fetch continuation is identical for any two status codes with the same
body. -/
theorem c5_silent_on_fetch_fault (env : RelayEnv) (msg : WAMessage)
    (content : MessageContent)
    (h1 : msg.key.fromMe = false) (h2 : msg.message = some content)
    (h3 : env.mediaOk = true)
    (h4 : env.fetch = FetchOutcome.networkError ∨
          ∃ st, env.fetch = FetchOutcome.httpResp st none) :
    (∀ j t, Effect.sendText j t ∉ processMessage env msg) ∧
    Effect.logFetchError ∈ processMessage env msg ∧
    (∀ st st' r, fetchContinuation msg.key.remoteJid (FetchOutcome.httpResp st r) =
      fetchContinuation msg.key.remoteJid (FetchOutcome.httpResp st' r)) := by
  refine ⟨?_, ?_, fun st st' r => by cases r <;> rfl⟩ <;>
    rcases h4 with h4 | ⟨st, h4⟩ <;> cases content <;>
      simp_all [processMessage, relayCore, fetchContinuation]

/-- Claim C5 witness: network failure for "hello" from "u1" — the error is
logged and not even the fallback is sent. -/
theorem c5_silent_on_fetch_fault_witness :
    Effect.logFetchError ∈
      processMessage ⟨true, "", FetchOutcome.networkError⟩
        ⟨⟨false, "u1"⟩, some (MessageContent.conversation "hello")⟩ ∧
    Effect.sendText "u1" fallbackReply ∉
      processMessage ⟨true, "", FetchOutcome.networkError⟩
        ⟨⟨false, "u1"⟩, some (MessageContent.conversation "hello")⟩ := by
  have h := c5_silent_on_fetch_fault ⟨true, "", FetchOutcome.networkError⟩
    ⟨⟨false, "u1"⟩, some (MessageContent.conversation "hello")⟩
    (MessageContent.conversation "hello") rfl rfl rfl (Or.inl rfl)
  exact ⟨h.2.1, h.1 "u1" fallbackReply⟩

/-- Claim C7 counterexample: the claim says a failed media retrieval still
leads to a Chat Backend call with the caption text and an empty media
payload; in the code the download sits inside the per-message try/catch, so
a failed audio download (message from "u1", no caption) yields only the
caught-error log — no read receipt and no backend call at all. -/
theorem c7_media_failure_no_backend_call :
    processMessage ⟨false, "", FetchOutcome.httpResp 200 (some ⟨some "ok", none⟩)⟩
        ⟨⟨false, "u1"⟩, some (MessageContent.audio "audio/ogg")⟩ =
      [Effect.logHandlerError] ∧
    Effect.backendCall chatEndpoint (chatBody "No texto disponible" "u1" "" JsonVal.jnull) ∉
      processMessage ⟨false, "", FetchOutcome.httpResp 200 (some ⟨some "ok", none⟩)⟩
        ⟨⟨false, "u1"⟩, some (MessageContent.audio "audio/ogg")⟩ := by
  decide

/-- Claim C7 (amended): when byte-stream retrieval or saving of an inbound
media message fails, the failure is caught and reported by the per-message
catch and that message is aborted — no read receipt, no Chat Backend call
and no reply for it — while processing continues with the remaining
messages of the batch. -/
theorem c7_media_failure_aborts_message (env : RelayEnv) (msg : WAMessage)
    (content : MessageContent) (rest : List (RelayEnv × WAMessage))
    (h1 : msg.key.fromMe = false) (h2 : msg.message = some content)
    (h3 : isMediaContent content = true) (h4 : env.mediaOk = false) :
    processMessage env msg = [Effect.logHandlerError] ∧
    processBatch ((env, msg) :: rest) =
      Effect.logHandlerError :: processBatch rest := by
  cases content <;> simp_all [processMessage, processBatch, isMediaContent]

/-- Claim C7 witness: a failing image download aborts that message and the
following text message is still processed. -/
theorem c7_media_failure_aborts_message_witness :
    processMessage ⟨false, "", FetchOutcome.networkError⟩
        ⟨⟨false, "u1"⟩, some (MessageContent.image "image/jpeg" (some "pic"))⟩ =
      [Effect.logHandlerError] ∧
    processBatch
        [(⟨false, "", FetchOutcome.networkError⟩,
          ⟨⟨false, "u1"⟩, some (MessageContent.image "image/jpeg" (some "pic"))⟩),
         (⟨true, "", FetchOutcome.networkError⟩,
          ⟨⟨false, "u2"⟩, some (MessageContent.conversation "hi")⟩)] =
      Effect.logHandlerError :: processBatch
        [(⟨true, "", FetchOutcome.networkError⟩,
          ⟨⟨false, "u2"⟩, some (MessageContent.conversation "hi")⟩)] :=
  c7_media_failure_aborts_message ⟨false, "", FetchOutcome.networkError⟩
    ⟨⟨false, "u1"⟩, some (MessageContent.image "image/jpeg" (some "pic"))⟩
    (MessageContent.image "image/jpeg" (some "pic"))
    [(⟨true, "", FetchOutcome.networkError⟩,
      ⟨⟨false, "u2"⟩, some (MessageContent.conversation "hi")⟩)]
    rfl rfl rfl rfl

/-- Claim C10: for every non-echo text-only inbound message (neither image
nor audio), the request body sent to the Chat Backend carries `mime_type`
as the empty string and `file_base64` as JSON `null` — both fields present
in the stringified body, not omitted. -/
theorem c10_text_only_body (env : RelayEnv) (msg : WAMessage)
    (content : MessageContent)
    (h1 : msg.key.fromMe = false) (h2 : msg.message = some content)
    (h3 : isMediaContent content = false) :
    processMessage env msg =
      Effect.readReceipt msg.key ::
      Effect.backendCall chatEndpoint
        (chatBody (extractText content) msg.key.remoteJid "" JsonVal.jnull) ::
      fetchContinuation msg.key.remoteJid env.fetch ∧
    ("mime_type", JsonVal.str "") ∈
      chatBody (extractText content) msg.key.remoteJid "" JsonVal.jnull ∧
    ("file_base64", JsonVal.jnull) ∈
      chatBody (extractText content) msg.key.remoteJid "" JsonVal.jnull := by
  cases content <;> simp_all [processMessage, relayCore, isMediaContent, chatBody]

/-- Claim C10 witness: the body built for the plain text "hola" from "u1". -/
theorem c10_text_only_body_witness :
    ("mime_type", JsonVal.str "") ∈
      chatBody (extractText (MessageContent.conversation "hola")) "u1" "" JsonVal.jnull ∧
    ("file_base64", JsonVal.jnull) ∈
      chatBody (extractText (MessageContent.conversation "hola")) "u1" "" JsonVal.jnull := by
  have h := c10_text_only_body ⟨true, "", FetchOutcome.networkError⟩
    ⟨⟨false, "u1"⟩, some (MessageContent.conversation "hola")⟩
    (MessageContent.conversation "hola") rfl rfl rfl
  exact ⟨h.2.1, h.2.2⟩

/-! ## Credential-update handler

Embeds `WhatsAppHandler.onCredsUpdate` of `global_resource.ts` lines 230-238
(identical in shape to `index.ts` lines 69-71).  The embedding records the
call/await structure of the handler body: every operation the handler
performs before returning, in order.  In TypeScript, the completion of an
asynchronous operation is sequenced before the handler's return only by an
`await` of it; `awaitSaveCompletion` would be that marker. -/

/-- An operation of the credential-update handler body. -/
inductive CredsOp where
  | logCreds
  | invokeSave
  | awaitSaveCompletion
deriving DecidableEq, Repr

/-- `onCredsUpdate(q)` body: the console logs, then `this.saveCreds();` —
the promise-returning save is invoked but not awaited, after which the
handler returns. -/
def onCredsUpdate : List CredsOp :=
  [CredsOp.logCreds, CredsOp.invokeSave]

/-- Claim C6 counterexample: the claim says the durable save completes
before the credential-update handler returns; the handler calls
`saveCreds()` without `await`, so no completion of the save is sequenced
before its return. -/
theorem c6_save_not_awaited : CredsOp.awaitSaveCompletion ∉ onCredsUpdate := by
  decide

/-- Claim C6 (amended): on every credential-update event the handler
initiates the durable save (invokes `saveCreds`) before returning, but does
not await its completion — the write may still be in flight when the
handler returns, so a window in which rotated credentials exist only in
memory does exist. -/
theorem c6_save_invoked_not_completed :
    onCredsUpdate = [CredsOp.logCreds, CredsOp.invokeSave] ∧
    CredsOp.invokeSave ∈ onCredsUpdate ∧
    CredsOp.awaitSaveCompletion ∉ onCredsUpdate := by
  exact ⟨rfl, by decide, by decide⟩

/-! ## Interactive chat CLI

Embeds `chat_cli.ts`: `callBackend` (lines 9-26) and the `main` read loop
(lines 28-58).  The HTTP request is modelled structurally; the backend is an
oracle from the sent text to either a parsed `ChatResponse` or a thrown
error message (`callBackend` throws on a non-ok response, and `fetch`
itself may reject). -/

/-- The default backend endpoint of `chat_cli.ts`. -/
def defaultBackendUrl : String := "http://127.0.0.1:8000/api/graphrag/enhanced/ask"

/-- The HTTP request `callBackend` issues: method, endpoint, the
`URLSearchParams` query pairs appended to the URL, whether the JSON
content-type header is set, and the request body (absent: the `fetch` call
passes no `body` option). -/
structure CliRequest where
  method : String
  endpoint : String
  queryParams : List (String × String)
  jsonHeader : Bool
  body : Option (List (String × JsonVal))
deriving DecidableEq, Repr

/-- `callBackend(message, userId)` (chat_cli.ts lines 9-26): POST to
`endpoint?query=...&retrieval_method=hybrid&top_k=5&use_graphrag=true` with
no request body; the `userId` argument is accepted but never used. -/
def callBackendRequest (endpoint message userId : String) : CliRequest :=
  { method := "POST"
  , endpoint := endpoint
  , queryParams :=
      [("query", message)
      , ("retrieval_method", "hybrid")
      , ("top_k", "5")
      , ("use_graphrag", "true")]
  , jsonHeader := true
  , body := none }

/-- JavaScript `String.prototype.trim`, modelled structurally over the
character list: strip whitespace from both ends. -/
def jsTrim (s : String) : String :=
  String.mk (((s.data.dropWhile Char.isWhitespace).reverse.dropWhile
    Char.isWhitespace).reverse)

/-- JavaScript `String.prototype.toLowerCase`, modelled structurally over
the character list. -/
def jsToLower (s : String) : String :=
  String.mk (s.data.map Char.toLower)

/-- One loop iteration's observables: the request issued and the line
printed. -/
structure CliStep where
  request : CliRequest
  printed : String
deriving DecidableEq, Repr

/-- Handling of one non-empty, non-exit input line (chat_cli.ts lines
47-53): call the backend; on success print `Bot: ` followed by
`result.answer ?? "(no reply)"`; on a thrown error print `Error: ...`. -/
def cliHandleLine (endpoint userId : String)
    (oracle : String → Except String ChatResponse) (text : String) : CliStep :=
  match oracle text with
  | Except.ok r =>
      { request := callBackendRequest endpoint text userId
      , printed := "Bot: " ++ r.answer.getD "(no reply)" }
  | Except.error e =>
      { request := callBackendRequest endpoint text userId
      , printed := "Error: " ++ e }

/-- The `while (true)` read loop of `main` (chat_cli.ts lines 42-54) over a
list of input lines: trim each line, skip empty ones, stop at the (case
insensitive) exit keyword, otherwise handle the line and continue. -/
def cliLoop (endpoint userId : String)
    (oracle : String → Except String ChatResponse) : List String → List CliStep
  | [] => []
  | line :: rest =>
    let text := jsTrim line
    if text = "" then cliLoop endpoint userId oracle rest
    else if jsToLower text = "exit" then []
    else cliHandleLine endpoint userId oracle text ::
      cliLoop endpoint userId oracle rest

/-- Claim C9 counterexample: the claim says each POST carries a body
`{message, user_id}` and that the `reply`/`answer` field is printed; the
request for line "hola" carries no body at all (the message travels as the
`query` URL parameter and `user_id` is never transmitted), and a response
whose only populated field is `reply` prints "(no reply)" because the CLI
reads only `answer`. -/
theorem c9_no_body_and_reply_unread :
    (callBackendRequest defaultBackendUrl "hola" "cli-user").body = none ∧
    (cliHandleLine defaultBackendUrl "cli-user"
        (fun _ => Except.ok ⟨some "X", none⟩) "hola").printed = "Bot: (no reply)" := by
  exact ⟨rfl, rfl⟩

/-- Claim C9 (amended): for every nonempty line that is not the exit
keyword, the CLI issues exactly one POST to the configured backend URL with
the line carried as the `query` URL parameter (alongside fixed
`retrieval_method`/`top_k`/`use_graphrag` parameters), no request body and
no transmitted user id; it prints `Bot: ` followed by the response's
`answer` field (or "(no reply)" when absent) and loops on the remaining
lines; empty lines are skipped and the exit keyword stops the loop. -/
theorem c9_cli_loop (endpoint userId : String)
    (oracle : String → Except String ChatResponse) (line : String)
    (rest : List String) (r : ChatResponse)
    (h1 : jsTrim line ≠ "") (h2 : jsToLower (jsTrim line) ≠ "exit")
    (h3 : oracle (jsTrim line) = Except.ok r) :
    cliLoop endpoint userId oracle (line :: rest) =
      cliHandleLine endpoint userId oracle (jsTrim line) ::
        cliLoop endpoint userId oracle rest ∧
    (cliHandleLine endpoint userId oracle (jsTrim line)).request =
      callBackendRequest endpoint (jsTrim line) userId ∧
    (callBackendRequest endpoint (jsTrim line) userId).body = none ∧
    ("query", jsTrim line) ∈
      (callBackendRequest endpoint (jsTrim line) userId).queryParams ∧
    (cliHandleLine endpoint userId oracle (jsTrim line)).printed =
      "Bot: " ++ r.answer.getD "(no reply)" ∧
    (∀ more : List String, cliLoop endpoint userId oracle ("exit" :: more) = []) ∧
    (∀ more : List String, cliLoop endpoint userId oracle ("" :: more) =
      cliLoop endpoint userId oracle more) := by
  refine ⟨?_, ?_, rfl, ?_, ?_, fun more => rfl, fun more => rfl⟩
  · simp [cliLoop, h1, h2]
  · simp [cliHandleLine, h3]
  · simp [callBackendRequest]
  · simp [cliHandleLine, h3]

/-- Claim C9 witness: the loop over input `["hola", "exit", "ignored"]`
against an oracle answering "40" — one request carrying `query=hola` and no
body, one `Bot: 40` line, and the loop stops at the exit keyword. -/
theorem c9_cli_loop_witness :
    cliLoop defaultBackendUrl "cli-user" (fun _ => Except.ok ⟨none, some "40"⟩)
        ["hola", "exit", "ignored"] =
      cliHandleLine defaultBackendUrl "cli-user"
        (fun _ => Except.ok ⟨none, some "40"⟩) (jsTrim "hola") ::
        cliLoop defaultBackendUrl "cli-user" (fun _ => Except.ok ⟨none, some "40"⟩)
          ["exit", "ignored"] ∧
    (callBackendRequest defaultBackendUrl (jsTrim "hola") "cli-user").body = none ∧
    ("query", jsTrim "hola") ∈
      (callBackendRequest defaultBackendUrl (jsTrim "hola") "cli-user").queryParams ∧
    (cliHandleLine defaultBackendUrl "cli-user"
        (fun _ => Except.ok ⟨none, some "40"⟩) (jsTrim "hola")).printed = "Bot: 40" := by
  have h := c9_cli_loop defaultBackendUrl "cli-user"
    (fun _ => Except.ok ⟨none, some "40"⟩) "hola" ["exit", "ignored"]
    ⟨none, some "40"⟩ (by decide) (by decide) rfl
  exact ⟨h.1, h.2.2.1, h.2.2.2.1, h.2.2.2.2.1⟩

end DonConfiado
